import Mathlib

/-!
Verification model of the bluez-sample-dbus device-lifecycle pipeline.

Strings from the C++ sources are modelled as `List Char`; `std::map` keyed
containers are modelled as association lists kept in key order where the
iteration order matters.  Machine integers (`uint32_t`) are modelled as `Nat`;
`value >> k` becomes `value / 2^k` and `value & (2^k - 1)` becomes `value % 2^k`.
-/

set_option autoImplicit false

/-! ## String model: DeviceManager::GetMACFromPath (DeviceManager.cpp:190-205) -/

/-- `listStartsWith pat s` is true when `pat` is an initial segment of `s`
(the success test of `std::string::find` at one position). -/
def listStartsWith : List Char → List Char → Bool
  | [], _ => true
  | _ :: _, [] => false
  | a :: as, b :: bs => a = b && listStartsWith as bs

/-- Index of the first occurrence of `pat` in `s`, as `std::string::find`
returns it (`none` models `std::string::npos`). -/
def findSub (pat : List Char) : List Char → Option Nat
  | [] => if listStartsWith pat [] then some 0 else none
  | c :: rest =>
      if listStartsWith pat (c :: rest) then some 0
      else (findSub pat rest).map (· + 1)

/-- The address marker `"dev_"` searched by `GetMACFromPath`. -/
def marker : List Char := ['d', 'e', 'v', '_']

/-- `std::replace(mac.begin(), mac.end(), '_', ':')`. -/
def replaceUnderscores (s : List Char) : List Char :=
  s.map (fun c => if c = '_' then ':' else c)

/-- `DeviceManager::GetMACFromPath`: find `"dev_"`; on `npos` return `""`;
otherwise take the suffix after the marker and replace underscores by colons. -/
def GetMACFromPath (path : List Char) : List Char :=
  match findSub marker path with
  | none => []
  | some pos => replaceUnderscores (path.drop (pos + marker.length))

/-- Modelled from the spec: the claimed identity format, a canonical uppercase
MAC `XX:XX:XX:XX:XX:XX` (17 characters, colons at positions 2,5,8,11,14 and
uppercase hexadecimal digits elsewhere).  Used only to compare the spec's
wording with what `GetMACFromPath` produces. -/
def specCanonicalUpperMAC (s : List Char) : Bool :=
  s.length == 17 &&
    (s.enum.all fun ic =>
      if ic.1 % 3 = 2 then ic.2 = ':'
      else ('0' ≤ ic.2 && ic.2 ≤ '9') || ('A' ≤ ic.2 && ic.2 ≤ 'F'))

/-! ## Device class filter (DeviceHelper.h:61-103, ObjectManagerProxy.cpp:109-136) -/

/-- `BluetoothMajorDeviceClass` enumerator values (DeviceHelper.h:61-73). -/
def BluetoothMajorDeviceClass.Phone : Nat := 0x02

def BluetoothMajorDeviceClass.AudioVideo : Nat := 0x04

def BluetoothMajorDeviceClass.Uncategorized : Nat := 0x1F

/-- The packed bit-field struct `BluetoothDeviceClass` (DeviceHelper.h:82-103).
Each field is stored in a bit-field of the declared width, so an assigned value
is truncated modulo `2^width`. -/
structure BluetoothDeviceClass where
  format_byte : Nat
  minor_device_class : Nat
  major_device_class : Nat
  service_class : Nat
  reserved : Nat
deriving DecidableEq

/-- `BluetoothDeviceClass::from_uint32_t` (DeviceHelper.h:94-102).
`major_device_class` receives `(value >> 8) & 0xFF` but is a 5-bit bit-field,
so the stored value is `((value >> 8) & 0xFF) % 32`. -/
def BluetoothDeviceClass.from_uint32_t (value : Nat) : BluetoothDeviceClass :=
  { format_byte := (value % 4) % 4
  , minor_device_class := ((value / 4) % 64) % 64
  , major_device_class := ((value / 256) % 256) % 32
  , service_class := ((value / 65536) % 2048) % 2048
  , reserved := ((value / 134217728) % 32) % 256 }

/-- The `"Class"` property key. -/
def classKeyChars : List Char := ['C', 'l', 'a', 's', 's']

/-- `ObjectManagerProxy::GetClass` (ObjectManagerProxy.cpp:109-119): look up the
`"Class"` entry of the property map; default `Uncategorized` when absent.  The
property map is modelled at the only type the function reads, `uint32_t`. -/
def GetClass (interfaces : List (List Char × Nat)) : Nat :=
  match interfaces.find? (fun p => p.1 == classKeyChars) with
  | some p => p.2
  | none => BluetoothMajorDeviceClass.Uncategorized

/-- `ObjectManagerProxy::ValidateClass` (ObjectManagerProxy.cpp:121-130). -/
def ValidateClass (device_class : Nat) : Bool :=
  let device_class_obj := BluetoothDeviceClass.from_uint32_t device_class
  device_class_obj.major_device_class == BluetoothMajorDeviceClass.Phone ||
    device_class_obj.major_device_class == BluetoothMajorDeviceClass.AudioVideo

/-- `ObjectManagerProxy::GetAndValidateClass` (ObjectManagerProxy.cpp:132-136). -/
def GetAndValidateClass (interfaces : List (List Char × Nat)) : Bool :=
  ValidateClass (GetClass interfaces)

/-- Modelled from the spec: "major = bits 8–15 of the class value", i.e.
`(value >> 8) & 0xFF`.  Used only to compare the spec's wording with the
implemented decoding. -/
def specMajorBits8to15 (value : Nat) : Nat := (value / 256) % 256

/-! ## Device registry (DeviceManager.cpp)

The registry value type is `Option DeviceRec`: a `std::shared_ptr<Device>`
entry may be null.  `DeviceRec` carries the device's bus-reported state
(`connected`, `paired`) together with a bus-failure oracle for the two bus
calls teardown issues (`sdbus::Error` thrown by `Disconnect`/`CancelPairing`).
The map is kept in `std::map` key order (lexicographic on the key string) so
that iteration in `RemoveDevices` matches the source. -/

structure DeviceRec where
  connected : Bool
  paired : Bool
  disconnectFails : Bool
  cancelFails : Bool
deriving DecidableEq

/-- `DevicesMap` (DeviceManager.h:25), in `std::map` iteration order. -/
abbrev RegMap : Type := List (List Char × Option DeviceRec)

/-- `std::string` comparison `<` (lexicographic on characters). -/
def strLt : List Char → List Char → Bool
  | [], [] => false
  | [], _ :: _ => true
  | _ :: _, [] => false
  | a :: as, b :: bs => if a = b then strLt as bs else a.toNat < b.toNat

/-- `m_devicesMap.find(k)` as an `Option` lookup. -/
def mapFind : RegMap → List Char → Option (Option DeviceRec)
  | [], _ => none
  | (k, v) :: rest, i => if k = i then some v else mapFind rest i

/-- `m_devicesMap[k] = v` on a key that may or may not be present, keeping the
list sorted the way `std::map` keeps its keys. -/
def mapInsert : RegMap → List Char → Option DeviceRec → RegMap
  | [], k, v => [(k, v)]
  | (k', v') :: rest, k, v =>
      if strLt k k' then (k, v) :: (k', v') :: rest
      else if k = k' then (k, v) :: rest
      else (k', v') :: mapInsert rest k v

/-- `m_devicesMap.erase(k)`. -/
def mapErase : RegMap → List Char → RegMap
  | [], _ => []
  | (k', v') :: rest, k => if k' = k then rest else (k', v') :: mapErase rest k

/-- `DeviceStruct` (DeviceManager.h:31-34). -/
structure AddReq where
  path : List Char
  enableLoop : Bool

/-- One iteration of the inner drain loop of `DeviceManager::RunEventLoop`
(DeviceManager.cpp:115-146) on a dequeued request.  `construct` is the bus
oracle for `std::make_shared<Device>(m_connection, path)`: `none` models a
thrown `sdbus::Error` (caught and logged, the add is dropped).  The second
component lists the devices whose monitoring loop the consumer starts: the
source never reads `enableLoop` and never calls `Device::StartLooping`, so it
is always empty. -/
def processRequest (construct : List Char → Option DeviceRec) (m : RegMap)
    (r : AddReq) : RegMap × List (List Char) :=
  let deviceMAC := GetMACFromPath r.path
  if r.path = [] ∨ deviceMAC = [] then (m, [])
  else if (mapFind m deviceMAC).isSome then (m, [])
  else
    match construct r.path with
    | some d => (mapInsert m deviceMAC (some d), [])
    | none => (m, [])

/-- The drain loop over a whole queue of requests (FIFO). -/
def processQueue (construct : List Char → Option DeviceRec) :
    RegMap → List AddReq → RegMap
  | m, [] => m
  | m, r :: rs => processQueue construct (processRequest construct m r).1 rs

/-- `DeviceManager::DeviceRemoved` (DeviceManager.cpp:58-71): derive the MAC,
`at` + `erase` inside a `try`; `std::out_of_range` on an absent key is caught
and logged.  The Boolean is true when the exception was caught (logged no-op);
the function is total, so no exception ever reaches the caller. -/
def DeviceRemoved (m : RegMap) (devicePath : List Char) : RegMap × Bool :=
  let deviceMAC := GetMACFromPath devicePath
  match mapFind m deviceMAC with
  | some _ => (mapErase m deviceMAC, false)
  | none => (m, true)

/-- `DEVICE_INTERFACE` (ObjectManagerProxy.cpp:12). -/
def DEVICE_INTERFACE : List Char := "org.bluez.Device1".toList

/-- `ObjectManagerProxy::onInterfacesRemoved` (ObjectManagerProxy.cpp:55-65):
for each listed interface equal to `DEVICE_INTERFACE`, the *interface name*
(not `objectPath`) is forwarded to `DeviceManager::DeviceRemoved`. -/
def onInterfacesRemoved (m : RegMap) (objectPath : List Char)
    (interfaces : List (List Char)) : RegMap :=
  interfaces.foldl
    (fun acc i => if i = DEVICE_INTERFACE then (DeviceRemoved acc i).1 else acc) m

/-- Teardown actions issued on the bus by `DeviceManager::RemoveDevices`. -/
inductive Act where
  | disconnect (mac : List Char)
  | cancelPair (mac : List Char)
deriving DecidableEq

/-- The `for` loop of `DeviceManager::RemoveDevices` (DeviceManager.cpp:160-178).
Null entries are skipped with `++it` (they stay in the map).  For a live entry
the fresh `GetProperties` bus read is modelled by the record's own flags; a
`Connected` record gets `Disconnect()`, a `Paired` record gets
`CancelPairing()`, then the entry is erased via `it = erase(it)`.  A thrown
`sdbus::Error` propagates out of the loop (the `try` wraps the whole loop), so
the result's Boolean marks the abort with the current and all later entries
still in the map. -/
def removeGo : List (List Char × Option DeviceRec) →
    List (List Char × Option DeviceRec) × List Act × Bool
  | [] => ([], [], false)
  | (k, none) :: rest =>
      match removeGo rest with
      | (rem, acts, err) => ((k, none) :: rem, acts, err)
  | (k, some d) :: rest =>
      if d.connected && d.disconnectFails then ((k, some d) :: rest, [], true)
      else if d.paired && d.cancelFails then
        ((k, some d) :: rest, if d.connected then [Act.disconnect k] else [], true)
      else
        match removeGo rest with
        | (rem, acts, err) =>
            (rem,
             (if d.connected then [Act.disconnect k] else []) ++
               ((if d.paired then [Act.cancelPair k] else []) ++ acts),
             err)

/-- `DeviceManager::RemoveDevices` (DeviceManager.cpp:155-188): run the sweep;
when no bus call failed the trailing `m_devicesMap.clear()` leaves the map
empty; when one failed the `catch` outside the loop logs once and the map is
left as the abort left it. -/
def RemoveDevices (m : RegMap) : RegMap × List Act × Bool :=
  match removeGo m with
  | (rem, acts, err) => if err then (rem, acts, true) else ([], acts, false)

/-- Entries whose modelled bus calls all succeed. -/
def opsSucceed (m : RegMap) : Bool :=
  m.all fun e =>
    match e.2 with
    | none => true
    | some d => !(d.connected && d.disconnectFails) && !(d.paired && d.cancelFails)

/-! ## PeerDevice property cache (Device.cpp:140-284)

`DeviceProperties` (DeviceHelper.h:38-55); the nested `std::map` members are
modelled as association lists.  Each typed callback returns the updated cache
together with the number of log lines it emits. -/

structure DeviceProperties where
  Address : List Char
  AddressType : List Char
  Name : List Char
  Class : Nat
  UUIDs : List (List Char)
  Paired : Bool
  Connected : Bool
  Trusted : Bool
  Blocked : Bool
  Alias : List Char
  AdapterPath : List Char
  LegacyPairing : Bool
  ServiceData : List (List Char × List (Int × List Char))
  ServicesResolved : Bool
  Icon : List Char
  ManufacturerData : List (Nat × List (Int × List Char))
deriving DecidableEq

/-- `Device::AddressChanged` (Device.cpp:140-146). -/
def Device.AddressChanged (p : DeviceProperties) (value : List Char) :
    DeviceProperties × Nat :=
  if p.Address ≠ value then ({ p with Address := value }, 1) else (p, 0)

/-- `Device::AddressTypeChanged` (Device.cpp:148-154). -/
def Device.AddressTypeChanged (p : DeviceProperties) (value : List Char) :
    DeviceProperties × Nat :=
  if p.AddressType ≠ value then ({ p with AddressType := value }, 1) else (p, 0)

/-- `Device::NameChanged` (Device.cpp:156-162). -/
def Device.NameChanged (p : DeviceProperties) (value : List Char) :
    DeviceProperties × Nat :=
  if p.Name ≠ value then ({ p with Name := value }, 1) else (p, 0)

/-- `Device::IconChanged` (Device.cpp:164-170). -/
def Device.IconChanged (p : DeviceProperties) (value : List Char) :
    DeviceProperties × Nat :=
  if p.Icon ≠ value then ({ p with Icon := value }, 1) else (p, 0)

/-- `Device::ClassChanged` (Device.cpp:172-178). -/
def Device.ClassChanged (p : DeviceProperties) (value : Nat) :
    DeviceProperties × Nat :=
  if p.Class ≠ value then ({ p with Class := value }, 1) else (p, 0)

/-- `Device::UUIDsChanged` (Device.cpp:180-190). -/
def Device.UUIDsChanged (p : DeviceProperties) (value : List (List Char)) :
    DeviceProperties × Nat :=
  if p.UUIDs ≠ value then ({ p with UUIDs := value }, 1) else (p, 0)

/-- `Device::PairedChanged` (Device.cpp:192-198). -/
def Device.PairedChanged (p : DeviceProperties) (value : Bool) :
    DeviceProperties × Nat :=
  if p.Paired ≠ value then ({ p with Paired := value }, 1) else (p, 0)

/-- `Device::ConnectedChanged` (Device.cpp:200-206). -/
def Device.ConnectedChanged (p : DeviceProperties) (value : Bool) :
    DeviceProperties × Nat :=
  if p.Connected ≠ value then ({ p with Connected := value }, 1) else (p, 0)

/-- `Device::TrustedChanged` (Device.cpp:208-214). -/
def Device.TrustedChanged (p : DeviceProperties) (value : Bool) :
    DeviceProperties × Nat :=
  if p.Trusted ≠ value then ({ p with Trusted := value }, 1) else (p, 0)

/-- `Device::BlockedChanged` (Device.cpp:216-222). -/
def Device.BlockedChanged (p : DeviceProperties) (value : Bool) :
    DeviceProperties × Nat :=
  if p.Blocked ≠ value then ({ p with Blocked := value }, 1) else (p, 0)

/-- `Device::AliasChanged` (Device.cpp:224-230). -/
def Device.AliasChanged (p : DeviceProperties) (value : List Char) :
    DeviceProperties × Nat :=
  if p.Alias ≠ value then ({ p with Alias := value }, 1) else (p, 0)

/-- `Device::AdapterChanged` (Device.cpp:232-238). -/
def Device.AdapterChanged (p : DeviceProperties) (value : List Char) :
    DeviceProperties × Nat :=
  if p.AdapterPath ≠ value then ({ p with AdapterPath := value }, 1) else (p, 0)

/-- `Device::LegacyPairingChanged` (Device.cpp:240-246). -/
def Device.LegacyPairingChanged (p : DeviceProperties) (value : Bool) :
    DeviceProperties × Nat :=
  if p.LegacyPairing ≠ value then ({ p with LegacyPairing := value }, 1) else (p, 0)

/-- `Device::ManufacturerDataChanged` (Device.cpp:248-261). -/
def Device.ManufacturerDataChanged (p : DeviceProperties)
    (value : List (Nat × List (Int × List Char))) : DeviceProperties × Nat :=
  if p.ManufacturerData ≠ value then ({ p with ManufacturerData := value }, 1)
  else (p, 0)

/-- `Device::ServiceDataChanged` (Device.cpp:263-276). -/
def Device.ServiceDataChanged (p : DeviceProperties)
    (value : List (List Char × List (Int × List Char))) : DeviceProperties × Nat :=
  if p.ServiceData ≠ value then ({ p with ServiceData := value }, 1) else (p, 0)

/-- `Device::ServicesResolvedChanged` (Device.cpp:278-284). -/
def Device.ServicesResolvedChanged (p : DeviceProperties) (value : Bool) :
    DeviceProperties × Nat :=
  if p.ServicesResolved ≠ value then ({ p with ServicesResolved := value }, 1)
  else (p, 0)

/-! ## Bus-call traces of Device::Connect / Device::Disconnect (Device.cpp:62-80) -/

/-- Outbound bus traffic issued while executing `Device::Connect` or
`Device::Disconnect`. -/
inductive BusCall where
  | getConnected
  | connectCall
  | disconnectCall
deriving DecidableEq

/-- Modelled from the spec: the generated proxy code
(`Device1-proxy-generated.hpp`, included by DeviceProxy.h but absent from the
repository) backs `DeviceProxy::GetConnected` (DeviceProxy.cpp:151-154).  Per
the spec, per-device property gets are outbound bus calls and property reads
are a fresh re-query of the bus state, so the getter issues one property-read
bus call and returns the bus-reported `Connected` value. -/
def DeviceProxy.GetConnected (busConnected : Bool) : Bool × List BusCall :=
  (busConnected, [BusCall.getConnected])

/-- Modelled from the spec: `DeviceProxy::Connect` (DeviceProxy.cpp:86-89)
invokes the `Connect` method on the bus. -/
def DeviceProxy.Connect : List BusCall := [BusCall.connectCall]

/-- Modelled from the spec: `DeviceProxy::Disconnect` (DeviceProxy.cpp:91-94)
invokes the `Disconnect` method on the bus. -/
def DeviceProxy.Disconnect : List BusCall := [BusCall.disconnectCall]

/-- `Device::Connect` (Device.cpp:62-70): the bus calls it issues given the
bus-reported connected state. -/
def Device.Connect (busConnected : Bool) : List BusCall :=
  let r := DeviceProxy.GetConnected busConnected
  if r.1 then r.2 else r.2 ++ DeviceProxy.Connect

/-- `Device::Disconnect` (Device.cpp:72-80): the bus calls it issues given the
bus-reported connected state. -/
def Device.Disconnect (busConnected : Bool) : List BusCall :=
  let r := DeviceProxy.GetConnected busConnected
  if !r.1 then r.2 else r.2 ++ DeviceProxy.Disconnect

/-! ## Concrete inputs used by witnesses and counterexamples -/

def samplePath : List Char := "/org/bluez/hci0/dev_AA_BB_CC_DD_EE_FF".toList

def sampleMAC : List Char := "AA:BB:CC:DD:EE:FF".toList

def sampleRec : DeviceRec := ⟨false, false, false, false⟩

def sampleConstruct : List Char → Option DeviceRec := fun _ => some sampleRec

/-- A record that is connected and paired, whose bus calls succeed. -/
def okRec : DeviceRec := ⟨true, true, false, false⟩

/-- A connected record whose `Disconnect` bus call throws `sdbus::Error`. -/
def failRec : DeviceRec := ⟨true, false, true, false⟩

/-- A connected record whose bus calls succeed. -/
def okConnRec : DeviceRec := ⟨true, false, false, false⟩

def sampleProps : DeviceProperties :=
  ⟨[], [], [], 0, [], false, false, false, false, [], [], false, [], false, [], []⟩

/-! ## Helper lemmas -/

lemma listStartsWith_eq_append (pat : List Char) :
    ∀ s : List Char, listStartsWith pat s = true → s = pat ++ s.drop pat.length := by
  induction pat with
  | nil => intro s _; simp
  | cons a as ih =>
      intro s h
      cases s with
      | nil => simp [listStartsWith] at h
      | cons b bs =>
          simp only [listStartsWith, Bool.and_eq_true, decide_eq_true_eq] at h
          obtain ⟨h1, h2⟩ := h
          subst h1
          simpa [List.cons_append] using ih bs h2

lemma findSub_startsWith (pat : List Char) :
    ∀ (s : List Char) (n : Nat), findSub pat s = some n →
      listStartsWith pat (s.drop n) = true := by
  intro s
  induction s with
  | nil =>
      intro n h
      by_cases hc : listStartsWith pat [] = true
      · simp [findSub, hc] at h
        subst h
        simpa using hc
      · simp [findSub, hc] at h
  | cons c rest ih =>
      intro n h
      by_cases hc : listStartsWith pat (c :: rest) = true
      · simp [findSub, hc] at h
        subst h
        simpa using hc
      · cases hrest : findSub pat rest with
        | none => simp [findSub, hc, hrest] at h
        | some m =>
            simp [findSub, hc, hrest] at h
            subst h
            simpa [List.drop_succ_cons] using ih m hrest

lemma mapFind_mapInsert_self (m : RegMap) (k : List Char) (v : Option DeviceRec) :
    mapFind (mapInsert m k v) k = some v := by
  induction m with
  | nil => simp [mapInsert, mapFind]
  | cons e rest ih =>
      obtain ⟨k0, v0⟩ := e
      by_cases h1 : strLt k k0 = true
      · simp [mapInsert, h1, mapFind]
      · by_cases h2 : k = k0
        · subst h2; simp [mapInsert, h1, mapFind]
        · have h3 : ¬ k0 = k := fun hh => h2 hh.symm
          simp [mapInsert, h1, h2, mapFind, h3, ih]

lemma mapFind_mapInsert_ne (m : RegMap) (k i : List Char) (v : Option DeviceRec)
    (hne : i ≠ k) : mapFind (mapInsert m k v) i = mapFind m i := by
  have hki : ¬ k = i := fun hh => hne hh.symm
  induction m with
  | nil => simp [mapInsert, mapFind, hki]
  | cons e rest ih =>
      obtain ⟨k0, v0⟩ := e
      by_cases h1 : strLt k k0 = true
      · simp [mapInsert, h1, mapFind, hki]
      · by_cases h2 : k = k0
        · subst h2; simp [mapInsert, h1, mapFind, hki]
        · simp [mapInsert, h1, h2, mapFind, ih]

lemma processRequest_registered_noop (construct : List Char → Option DeviceRec)
    (m : RegMap) (r : AddReq)
    (h : (mapFind m (GetMACFromPath r.path)).isSome = true) :
    (processRequest construct m r).1 = m := by
  by_cases h1 : r.path = [] ∨ GetMACFromPath r.path = []
  · simp [processRequest, h1]
  · simp [processRequest, h1, h]

lemma processRequest_preserves_isSome (construct : List Char → Option DeviceRec)
    (m : RegMap) (r : AddReq) (i : List Char)
    (h : (mapFind m i).isSome = true) :
    (mapFind (processRequest construct m r).1 i).isSome = true := by
  by_cases h1 : r.path = [] ∨ GetMACFromPath r.path = []
  · simpa [processRequest, h1] using h
  · by_cases h2 : (mapFind m (GetMACFromPath r.path)).isSome = true
    · simpa [processRequest, h1, h2] using h
    · cases hc : construct r.path with
      | none => simpa [processRequest, h1, h2, hc] using h
      | some d =>
          by_cases hik : i = GetMACFromPath r.path
          · subst hik; simp [processRequest, h1, h2, hc, mapFind_mapInsert_self]
          · simpa [processRequest, h1, h2, hc,
              mapFind_mapInsert_ne _ _ _ _ hik] using h

lemma processQueue_preserves_isSome (construct : List Char → Option DeviceRec)
    (rs : List AddReq) :
    ∀ (m : RegMap) (i : List Char), (mapFind m i).isSome = true →
      (mapFind (processQueue construct m rs) i).isSome = true := by
  induction rs with
  | nil => intro m i h; simpa [processQueue] using h
  | cons r rest ih =>
      intro m i h
      exact ih _ i (processRequest_preserves_isSome construct m r i h)

lemma processRequest_keeps_empty_absent (construct : List Char → Option DeviceRec)
    (m : RegMap) (r : AddReq) (h : mapFind m [] = none) :
    mapFind (processRequest construct m r).1 [] = none := by
  by_cases h1 : r.path = [] ∨ GetMACFromPath r.path = []
  · simpa [processRequest, h1] using h
  · by_cases h2 : (mapFind m (GetMACFromPath r.path)).isSome = true
    · simpa [processRequest, h1, h2] using h
    · cases hc : construct r.path with
      | none => simpa [processRequest, h1, h2, hc] using h
      | some d =>
          have hmac : GetMACFromPath r.path ≠ [] := fun hh => h1 (Or.inr hh)
          simpa [processRequest, h1, h2, hc,
            mapFind_mapInsert_ne _ _ _ _ (fun hh => hmac hh.symm)] using h

lemma processQueue_keeps_empty_absent (construct : List Char → Option DeviceRec)
    (rs : List AddReq) :
    ∀ m : RegMap, mapFind m [] = none →
      mapFind (processQueue construct m rs) [] = none := by
  induction rs with
  | nil => intro m h; simpa [processQueue] using h
  | cons r rest ih =>
      intro m h
      exact ih _ (processRequest_keeps_empty_absent construct m r h)

lemma DeviceRemoved_interface_name_noop (m : RegMap) (h : mapFind m [] = none) :
    (DeviceRemoved m DEVICE_INTERFACE).1 = m := by
  have hmac : GetMACFromPath DEVICE_INTERFACE = [] := by decide
  simp [DeviceRemoved, hmac, h]

lemma removeGo_ok :
    ∀ m : RegMap, opsSucceed m = true →
      (removeGo m).2.2 = false ∧
      (∀ k d, (k, some d) ∈ m → d.connected = true →
          Act.disconnect k ∈ (removeGo m).2.1) ∧
      (∀ k d, (k, some d) ∈ m → d.paired = true →
          Act.cancelPair k ∈ (removeGo m).2.1) := by
  intro m
  induction m with
  | nil =>
      intro _
      refine ⟨rfl, ?_, ?_⟩ <;> intro k d hk <;> simp at hk
  | cons e rest ih =>
      intro h
      obtain ⟨k0, v0⟩ := e
      rw [opsSucceed, List.all_cons, Bool.and_eq_true] at h
      obtain ⟨hhead, hrest⟩ := h
      obtain ⟨he, hd, hp⟩ := ih hrest
      rcases hgo : removeGo rest with ⟨rem, rest_pair⟩
      rcases rest_pair with ⟨acts, err⟩
      rw [hgo] at he hd hp
      simp only at he hd hp
      cases v0 with
      | none =>
          refine ⟨by simp [removeGo, hgo, he], ?_, ?_⟩ <;> intro k d hk hflag
          · rcases List.mem_cons.mp hk with hk | hk
            · simp at hk
            · simpa [removeGo, hgo] using hd k d hk hflag
          · rcases List.mem_cons.mp hk with hk | hk
            · simp at hk
            · simpa [removeGo, hgo] using hp k d hk hflag
      | some d0 =>
          simp only at hhead
          rw [Bool.and_eq_true, Bool.not_eq_true', Bool.not_eq_true'] at hhead
          obtain ⟨hc1, hc2⟩ := hhead
          refine ⟨by simp [removeGo, hc1, hc2, hgo, he], ?_, ?_⟩ <;> intro k d hk hflag
          · rcases List.mem_cons.mp hk with hk | hk
            · rw [Prod.mk.injEq] at hk
              obtain ⟨rfl, hk2⟩ := hk
              obtain rfl : d = d0 := Option.some.inj hk2
              have hdf : d.disconnectFails = false := by
                rw [hflag] at hc1; simpa using hc1
              simp [removeGo, hc1, hc2, hgo, hflag, hdf]
            · have := hd k d hk hflag
              simp only [removeGo, hc1, hc2, hgo]
              simp [this]
          · rcases List.mem_cons.mp hk with hk | hk
            · rw [Prod.mk.injEq] at hk
              obtain ⟨rfl, hk2⟩ := hk
              obtain rfl : d = d0 := Option.some.inj hk2
              have hcf : d.cancelFails = false := by
                rw [hflag] at hc2; simpa using hc2
              simp [removeGo, hc1, hc2, hgo, hflag, hcf]
            · have := hp k d hk hflag
              simp only [removeGo, hc1, hc2, hgo]
              simp [this]

lemma removeGo_err :
    ∀ m : RegMap, (removeGo m).2.2 = true →
      ∃ k d, (k, some d) ∈ (removeGo m).1 ∧
        ((d.connected && d.disconnectFails) = true ∨
         (d.paired && d.cancelFails) = true) := by
  intro m
  induction m with
  | nil => intro h; simp [removeGo] at h
  | cons e rest ih =>
      obtain ⟨k0, v0⟩ := e
      rcases hgo : removeGo rest with ⟨rem, rest_pair⟩
      rcases rest_pair with ⟨acts, err⟩
      cases v0 with
      | none =>
          intro h
          simp only [removeGo, hgo] at h
          obtain ⟨k, d, hmem, hor⟩ := ih (by rw [hgo]; exact h)
          rw [hgo] at hmem
          exact ⟨k, d, by simp only [removeGo, hgo]; exact List.mem_cons_of_mem _ hmem, hor⟩
      | some d0 =>
          by_cases hc1 : (d0.connected && d0.disconnectFails) = true
          · intro _
            exact ⟨k0, d0, by simp [removeGo, hc1], Or.inl hc1⟩
          · by_cases hc2 : (d0.paired && d0.cancelFails) = true
            · intro _
              exact ⟨k0, d0, by simp [removeGo, hc1, hc2], Or.inr hc2⟩
            · intro h
              simp only [removeGo, hc1, hc2, hgo, Bool.not_eq_true] at h
              obtain ⟨k, d, hmem, hor⟩ := ih (by rw [hgo]; simpa using h)
              rw [hgo] at hmem
              refine ⟨k, d, ?_, hor⟩
              simp only [removeGo, hc1, hc2, hgo, Bool.not_eq_true]
              simpa using hmem

/-! ## Claim C1 -/

/-- C1 counterexample: class `0x002200` is accepted by the code (the 5-bit
bit-field truncates `(0x2200 >> 8) & 0xFF = 0x22` to `0x02` = Phone), although
its bits 8-15 are `0x22`, which is neither Phone nor AudioVideo — so
"accepts if and only if bits 8-15 are Phone or AudioVideo" is false. -/
theorem GetAndValidateClass_bits8to15_counterexample :
    GetAndValidateClass [(classKeyChars, 0x002200)] = true ∧
    specMajorBits8to15 0x002200 ≠ BluetoothMajorDeviceClass.Phone ∧
    specMajorBits8to15 0x002200 ≠ BluetoothMajorDeviceClass.AudioVideo := by
  decide

/-- C1 (amended): the filter accepts a property map if and only if the 5-bit
major field at bit offset 8 of its class value — `(class >> 8) & 0x1F`, the
value the 5-bit bit-field of `BluetoothDeviceClass` actually stores — is
Phone (0x02) or AudioVideo (0x04); when the "Class" key is absent the class
defaults to `Uncategorized` (0x1F) and the map is rejected; class 0x000204 is
accepted and class 0x000100 is rejected. -/
theorem GetAndValidateClass_five_bit_major :
    (∀ interfaces : List (List Char × Nat),
        (GetAndValidateClass interfaces = true ↔
          ((GetClass interfaces / 256) % 32 = BluetoothMajorDeviceClass.Phone ∨
           (GetClass interfaces / 256) % 32 = BluetoothMajorDeviceClass.AudioVideo)) ∧
        (interfaces.find? (fun p => p.1 == classKeyChars) = none →
          GetClass interfaces = BluetoothMajorDeviceClass.Uncategorized ∧
          GetAndValidateClass interfaces = false)) ∧
    GetAndValidateClass [(classKeyChars, 0x000204)] = true ∧
    GetAndValidateClass [(classKeyChars, 0x000100)] = false := by
  refine ⟨?_, by decide, by decide⟩
  intro interfaces
  constructor
  · have hmod : ∀ v : Nat, ((v / 256) % 256) % 32 = (v / 256) % 32 :=
      fun v => Nat.mod_mod_of_dvd _ (by norm_num)
    simp [GetAndValidateClass, ValidateClass, BluetoothDeviceClass.from_uint32_t,
      hmod, BluetoothMajorDeviceClass.Phone, BluetoothMajorDeviceClass.AudioVideo]
  · intro h
    have hcls : GetClass interfaces = BluetoothMajorDeviceClass.Uncategorized := by
      simp [GetClass, h]
    refine ⟨hcls, ?_⟩
    rw [GetAndValidateClass, hcls]
    decide

/-- C1 witness: the amended theorem instantiated at a Phone-class map and at a
map with no "Class" key. -/
theorem GetAndValidateClass_five_bit_major_witness :
    (GetAndValidateClass [(classKeyChars, 0x000204)] = true ↔
      ((GetClass [(classKeyChars, 0x000204)] / 256) % 32 = BluetoothMajorDeviceClass.Phone ∨
       (GetClass [(classKeyChars, 0x000204)] / 256) % 32 = BluetoothMajorDeviceClass.AudioVideo)) ∧
    (GetClass [] = BluetoothMajorDeviceClass.Uncategorized ∧
      GetAndValidateClass [] = false) :=
  ⟨(GetAndValidateClass_five_bit_major.1 [(classKeyChars, 0x000204)]).1,
   (GetAndValidateClass_five_bit_major.1 []).2 rfl⟩

/-! ## Claim C2 -/

/-- C2: first-writer-wins dedup of the registry consumer loop.  A request
whose derived identity is already registered leaves the map unchanged;
registration persists through any further adds (no removal); a request whose
identity is absent (with nonempty path and identity and successful
construction) creates the record; hence a request for an identity registered
earlier is a no-op after any sequence of intervening adds. -/
theorem registry_first_writer_wins :
    (∀ (construct : List Char → Option DeviceRec) (m : RegMap) (r : AddReq),
        (mapFind m (GetMACFromPath r.path)).isSome = true →
        (processRequest construct m r).1 = m) ∧
    (∀ (construct : List Char → Option DeviceRec) (m : RegMap)
        (rs : List AddReq) (i : List Char),
        (mapFind m i).isSome = true →
        (mapFind (processQueue construct m rs) i).isSome = true) ∧
    (∀ (construct : List Char → Option DeviceRec) (m : RegMap) (r : AddReq)
        (d : DeviceRec),
        mapFind m (GetMACFromPath r.path) = none → r.path ≠ [] →
        GetMACFromPath r.path ≠ [] → construct r.path = some d →
        mapFind (processRequest construct m r).1 (GetMACFromPath r.path)
          = some (some d)) ∧
    (∀ (construct : List Char → Option DeviceRec) (m : RegMap)
        (rs : List AddReq) (r : AddReq),
        (mapFind m (GetMACFromPath r.path)).isSome = true →
        (processRequest construct (processQueue construct m rs) r).1
          = processQueue construct m rs) := by
  refine ⟨processRequest_registered_noop,
    fun construct m rs i => processQueue_preserves_isSome construct rs m i, ?_, ?_⟩
  · intro construct m r d h h1 h2 hc
    have hcond : ¬ (r.path = [] ∨ GetMACFromPath r.path = []) := by
      intro hh; rcases hh with hh | hh
      · exact h1 hh
      · exact h2 hh
    have hsome : ¬ (mapFind m (GetMACFromPath r.path)).isSome = true := by
      rw [h]; simp
    simp [processRequest, hcond, hsome, hc, mapFind_mapInsert_self]
  · intro construct m rs r h
    exact processRequest_registered_noop construct _ r
      (processQueue_preserves_isSome construct rs m _ h)

/-- C2 witness: the four parts instantiated on a one-record registry and the
request re-adding the same bus path. -/
theorem registry_first_writer_wins_witness :
    (processRequest sampleConstruct [(sampleMAC, some sampleRec)]
        ⟨samplePath, false⟩).1 = [(sampleMAC, some sampleRec)] ∧
    (mapFind (processQueue sampleConstruct [(sampleMAC, some sampleRec)]
        [⟨samplePath, true⟩]) sampleMAC).isSome = true ∧
    mapFind (processRequest sampleConstruct [] ⟨samplePath, false⟩).1
        (GetMACFromPath samplePath) = some (some sampleRec) ∧
    (processRequest sampleConstruct
        (processQueue sampleConstruct [(sampleMAC, some sampleRec)]
          [⟨samplePath, false⟩]) ⟨samplePath, false⟩).1
      = processQueue sampleConstruct [(sampleMAC, some sampleRec)]
          [⟨samplePath, false⟩] :=
  ⟨registry_first_writer_wins.1 sampleConstruct _ _ (by decide),
   registry_first_writer_wins.2.1 sampleConstruct _ _ sampleMAC (by decide),
   registry_first_writer_wins.2.2.1 sampleConstruct [] ⟨samplePath, false⟩
     sampleRec (by decide) (by decide) (by decide) rfl,
   registry_first_writer_wins.2.2.2 sampleConstruct _ [⟨samplePath, false⟩] _
     (by decide)⟩

/-! ## Claim C3 -/

/-- C3 counterexample: a bus path whose suffix is lowercase yields a lowercase
identity — `GetMACFromPath` replaces underscores by colons but performs no
case conversion, so the identity is not in canonical uppercase
`XX:XX:XX:XX:XX:XX` form. -/
theorem GetMACFromPath_lowercase_counterexample :
    GetMACFromPath "/org/bluez/hci0/dev_aa_bb_cc_dd_ee_ff".toList
      = "aa:bb:cc:dd:ee:ff".toList ∧
    specCanonicalUpperMAC
      (GetMACFromPath "/org/bluez/hci0/dev_aa_bb_cc_dd_ee_ff".toList) = false := by
  decide

/-- C3 (amended): a path without the `"dev_"` marker derives the empty
identity and is never registered by the consumer loop; a path containing the
marker splits as `pre ++ "dev_" ++ suf` and derives exactly `suf` with every
underscore replaced by a colon — verbatim, with no case conversion or format
validation, so the identity is canonical uppercase only when the path suffix
already is. -/
theorem GetMACFromPath_marker_characterization :
    (∀ path : List Char, findSub marker path = none →
        GetMACFromPath path = [] ∧
        ∀ (construct : List Char → Option DeviceRec) (m : RegMap) (b : Bool),
          (processRequest construct m ⟨path, b⟩).1 = m) ∧
    (∀ (path : List Char) (n : Nat), findSub marker path = some n →
        ∃ pre suf, path = pre ++ marker ++ suf ∧
          GetMACFromPath path = replaceUnderscores suf) := by
  constructor
  · intro path h
    have hmac : GetMACFromPath path = [] := by simp [GetMACFromPath, h]
    refine ⟨hmac, ?_⟩
    intro construct m b
    have hcond : (⟨path, b⟩ : AddReq).path = [] ∨
        GetMACFromPath (⟨path, b⟩ : AddReq).path = [] := Or.inr hmac
    simp [processRequest, hcond]
  · intro path n h
    have hsw := findSub_startsWith marker path n h
    have hd := listStartsWith_eq_append marker (path.drop n) hsw
    have h2 : (path.drop n).drop marker.length = path.drop (n + marker.length) := by
      rw [List.drop_drop, Nat.add_comm]
    refine ⟨path.take n, path.drop (n + marker.length), ?_, ?_⟩
    · conv_lhs => rw [← List.take_append_drop n path]
      rw [hd, h2, List.append_assoc]
    · simp [GetMACFromPath, h]

/-- C3 witness: the characterization applied to a marker-less string (an
interface name) and to a real device path. -/
theorem GetMACFromPath_marker_characterization_witness :
    (GetMACFromPath "/org/bluez/hci0/abc".toList = [] ∧
      ∀ (construct : List Char → Option DeviceRec) (m : RegMap) (b : Bool),
        (processRequest construct m ⟨"/org/bluez/hci0/abc".toList, b⟩).1 = m) ∧
    (∃ pre suf, samplePath = pre ++ marker ++ suf ∧
        GetMACFromPath samplePath = replaceUnderscores suf) :=
  ⟨GetMACFromPath_marker_characterization.1 "/org/bluez/hci0/abc".toList (by decide),
   GetMACFromPath_marker_characterization.2 samplePath 16 (by decide)⟩

/-! ## Claim C4 -/

/-- C4 counterexample: `Device::Connect` on an already-connected device issues
one bus call — the `Connected` property read performed by the idempotence
guard — not zero; likewise `Device::Disconnect` on a non-connected device. -/
theorem Device_Connect_property_read_counterexample :
    Device.Connect true = [BusCall.getConnected] ∧
    Device.Connect true ≠ [] ∧
    Device.Disconnect false = [BusCall.getConnected] ∧
    Device.Disconnect false ≠ [] := by
  decide

/-- C4 (amended): `connect()` on an already-connected device issues no
state-changing method call (`Connect`/`Disconnect`); its only bus traffic is
the single `Connected` property read of the guard, after which it returns
(logging).  Symmetrically for `disconnect()` on a non-connected device; in the
other state each issues the property read followed by the method call. -/
theorem Device_Connect_idempotence_guard :
    ∀ b : Bool,
      (b = true →
        Device.Connect b = [BusCall.getConnected] ∧
        BusCall.connectCall ∉ Device.Connect b ∧
        BusCall.disconnectCall ∉ Device.Connect b) ∧
      (b = false →
        Device.Disconnect b = [BusCall.getConnected] ∧
        BusCall.connectCall ∉ Device.Disconnect b ∧
        BusCall.disconnectCall ∉ Device.Disconnect b) ∧
      (b = false →
        Device.Connect b = [BusCall.getConnected, BusCall.connectCall]) ∧
      (b = true →
        Device.Disconnect b = [BusCall.getConnected, BusCall.disconnectCall]) := by
  intro b
  cases b <;> exact (by decide)

/-- C4 witness: the amended theorem applied in the already-connected and
not-connected states. -/
theorem Device_Connect_idempotence_guard_witness :
    (Device.Connect true = [BusCall.getConnected] ∧
      BusCall.connectCall ∉ Device.Connect true ∧
      BusCall.disconnectCall ∉ Device.Connect true) ∧
    (Device.Disconnect false = [BusCall.getConnected] ∧
      BusCall.connectCall ∉ Device.Disconnect false ∧
      BusCall.disconnectCall ∉ Device.Disconnect false) :=
  ⟨(Device_Connect_idempotence_guard true).1 rfl,
   (Device_Connect_idempotence_guard false).2.1 rfl⟩

/-! ## Claim C5 -/

/-- C5 counterexample: with record "A" connected and its `Disconnect` throwing
`sdbus::Error`, and a second connected record "B", the teardown sweep aborts
at "A" (the `try` wraps the whole loop): "B" is never disconnected, the map is
not emptied — both "A" and "B" remain — contradicting "a bus-call failure on
one record does not prevent the remaining records from being processed". -/
theorem RemoveDevices_abort_counterexample :
    RemoveDevices [(['A'], some failRec), (['B'], some okConnRec)]
      = ([(['A'], some failRec), (['B'], some okConnRec)], [], true) ∧
    (RemoveDevices [(['A'], some failRec), (['B'], some okConnRec)]).1 ≠ [] ∧
    Act.disconnect ['B']
      ∉ (RemoveDevices [(['A'], some failRec), (['B'], some okConnRec)]).2.1 := by
  decide

/-- C5 (amended): when every bus call of the sweep succeeds, teardown visits
every record — issuing `Disconnect` for each connected one and `CancelPairing`
for each paired one — and leaves the registry map empty.  When a bus call
fails, however, the single `catch` outside the loop aborts the sweep: the map
is left non-empty, still containing the record whose bus call failed (and
every record after it). -/
theorem RemoveDevices_sweep_characterization :
    (∀ m : RegMap, opsSucceed m = true →
        (RemoveDevices m).1 = [] ∧ (RemoveDevices m).2.2 = false ∧
        (∀ k d, (k, some d) ∈ m → d.connected = true →
            Act.disconnect k ∈ (RemoveDevices m).2.1) ∧
        (∀ k d, (k, some d) ∈ m → d.paired = true →
            Act.cancelPair k ∈ (RemoveDevices m).2.1)) ∧
    (∀ m : RegMap, (RemoveDevices m).2.2 = true →
        (RemoveDevices m).1 ≠ [] ∧
        ∃ k d, (k, some d) ∈ (RemoveDevices m).1 ∧
          ((d.connected && d.disconnectFails) = true ∨
           (d.paired && d.cancelFails) = true)) := by
  constructor
  · intro m h
    obtain ⟨he, hd, hp⟩ := removeGo_ok m h
    rcases hgo : removeGo m with ⟨rem, rest_pair⟩
    rcases rest_pair with ⟨acts, err⟩
    rw [hgo] at he hd hp
    simp only at he hd hp
    subst he
    refine ⟨by simp [RemoveDevices, hgo], by simp [RemoveDevices, hgo], ?_, ?_⟩
    · intro k d hk hflag
      simpa [RemoveDevices, hgo] using hd k d hk hflag
    · intro k d hk hflag
      simpa [RemoveDevices, hgo] using hp k d hk hflag
  · intro m h
    rcases hgo : removeGo m with ⟨rem, rest_pair⟩
    rcases rest_pair with ⟨acts, err⟩
    rw [RemoveDevices, hgo] at h
    have herr : err = true := by
      by_cases hb : err = true
      · exact hb
      · simp [hb] at h
    subst herr
    obtain ⟨k, d, hmem, hor⟩ := removeGo_err m (by rw [hgo])
    rw [hgo] at hmem
    simp only at hmem
    refine ⟨?_, k, d, ?_, hor⟩
    · simp only [RemoveDevices, hgo, if_true]
      intro hh
      rw [hh] at hmem
      simp at hmem
    · simpa [RemoveDevices, hgo] using hmem

/-- C5 witness: the success half applied to a registry with one connected and
paired record whose bus calls succeed, and the abort half applied to the
registry of the counterexample shape. -/
theorem RemoveDevices_sweep_characterization_witness :
    ((RemoveDevices [(sampleMAC, some okRec)]).1 = [] ∧
      (RemoveDevices [(sampleMAC, some okRec)]).2.2 = false ∧
      Act.disconnect sampleMAC ∈ (RemoveDevices [(sampleMAC, some okRec)]).2.1 ∧
      Act.cancelPair sampleMAC ∈ (RemoveDevices [(sampleMAC, some okRec)]).2.1) ∧
    ((RemoveDevices [(sampleMAC, some failRec)]).1 ≠ [] ∧
      ∃ k d, (k, some d) ∈ (RemoveDevices [(sampleMAC, some failRec)]).1 ∧
        ((d.connected && d.disconnectFails) = true ∨
         (d.paired && d.cancelFails) = true)) := by
  have hok := RemoveDevices_sweep_characterization.1 [(sampleMAC, some okRec)]
    (by decide)
  have herr := RemoveDevices_sweep_characterization.2 [(sampleMAC, some failRec)]
    (by decide)
  exact ⟨⟨hok.1, hok.2.1,
    hok.2.2.1 sampleMAC okRec (by simp) (by decide),
    hok.2.2.2 sampleMAC okRec (by simp) (by decide)⟩, herr⟩

/-! ## Claim C6 -/

/-- C6: contrary to the claim (and to the `enableLoop` documentation in
IDeviceManager.h and DeviceManager.h), the consumer loop never starts a
device's monitoring loop: even for a request with `enableLoop = true` whose
identity is new and whose construction succeeds, the record is inserted but
the set of started loops is empty — `RunEventLoop` never reads `enableLoop`
and never calls `Device::StartLooping`. -/
theorem processRequest_inserts_but_never_starts_loop :
    ∀ (construct : List Char → Option DeviceRec) (m : RegMap) (r : AddReq)
      (d : DeviceRec),
      r.enableLoop = true → r.path ≠ [] → GetMACFromPath r.path ≠ [] →
      mapFind m (GetMACFromPath r.path) = none → construct r.path = some d →
      mapFind (processRequest construct m r).1 (GetMACFromPath r.path)
          = some (some d) ∧
      (processRequest construct m r).2 = [] := by
  intro construct m r d _ h1 h2 h hc
  have hcond : ¬ (r.path = [] ∨ GetMACFromPath r.path = []) := by
    intro hh; rcases hh with hh | hh
    · exact h1 hh
    · exact h2 hh
  have hsome : ¬ (mapFind m (GetMACFromPath r.path)).isSome = true := by
    rw [h]; simp
  constructor
  · simp [processRequest, hcond, hsome, hc, mapFind_mapInsert_self]
  · simp [processRequest, hcond, hsome, hc]

/-- C6 witness: a concrete `enableLoop = true` request (as the pairing agent
issues) is inserted into an empty registry with no loop started. -/
theorem processRequest_inserts_but_never_starts_loop_witness :
    mapFind (processRequest sampleConstruct [] ⟨samplePath, true⟩).1
        (GetMACFromPath samplePath) = some (some sampleRec) ∧
    (processRequest sampleConstruct [] ⟨samplePath, true⟩).2 = [] :=
  processRequest_inserts_but_never_starts_loop sampleConstruct []
    ⟨samplePath, true⟩ sampleRec rfl (by decide) (by decide) rfl rfl

/-! ## Claim C7 -/

/-- C7: removing an identity that is not in the registry map never raises to
the caller (the model is a total function; the `std::out_of_range` thrown by
`at` is caught inside) and leaves the map unchanged, returning with the
logged-no-op flag set. -/
theorem DeviceRemoved_absent_noop :
    ∀ (m : RegMap) (devicePath : List Char),
      mapFind m (GetMACFromPath devicePath) = none →
      DeviceRemoved m devicePath = (m, true) := by
  intro m devicePath h
  simp [DeviceRemoved, h]

/-- C7 witness: removing a device path from a registry that does not hold its
identity. -/
theorem DeviceRemoved_absent_noop_witness :
    DeviceRemoved [(['A'], some sampleRec)] samplePath
      = ([(['A'], some sampleRec)], true) :=
  DeviceRemoved_absent_noop [(['A'], some sampleRec)] samplePath (by decide)

/-! ## Claim C10 -/

/-- C10: `onInterfacesRemoved` forwards the interface name (never the object
path) to the removal operation; identity derivation on
`"org.bluez.Device1"` yields the empty identity; registries built by the
consumer loop never hold the empty identity; hence an object-removed signal
never erases any registered record. -/
theorem onInterfacesRemoved_never_erases :
    GetMACFromPath DEVICE_INTERFACE = [] ∧
    (∀ (construct : List Char → Option DeviceRec) (rs : List AddReq),
        mapFind (processQueue construct [] rs) [] = none) ∧
    (∀ (m : RegMap) (objectPath : List Char) (interfaces : List (List Char)),
        mapFind m [] = none →
        onInterfacesRemoved m objectPath interfaces = m) := by
  refine ⟨by decide, ?_, ?_⟩
  · intro construct rs
    exact processQueue_keeps_empty_absent construct rs [] rfl
  · intro m objectPath interfaces h
    induction interfaces with
    | nil => rfl
    | cons i rest ih =>
        by_cases hi : i = DEVICE_INTERFACE
        · subst hi
          show List.foldl _ _ _ = m
          rw [List.foldl_cons, if_pos rfl, DeviceRemoved_interface_name_noop m h]
          exact ih
        · show List.foldl _ _ _ = m
          rw [List.foldl_cons, if_neg hi]
          exact ih

/-- C10 witness: an object-removed signal for the device interface leaves a
populated registry untouched. -/
theorem onInterfacesRemoved_never_erases_witness :
    mapFind (processQueue sampleConstruct [] [⟨samplePath, false⟩]) [] = none ∧
    onInterfacesRemoved [(sampleMAC, some sampleRec)] samplePath
        [DEVICE_INTERFACE] = [(sampleMAC, some sampleRec)] :=
  ⟨onInterfacesRemoved_never_erases.2.1 sampleConstruct [⟨samplePath, false⟩],
   onInterfacesRemoved_never_erases.2.2 [(sampleMAC, some sampleRec)] samplePath
     [DEVICE_INTERFACE] (by decide)⟩

/-! ## Claim C8 -/

/-- C8: each of the 16 typed property-changed callbacks is equality-guarded:
delivering a value equal to the cached one leaves the cache unchanged and logs
nothing; delivering a differing value sets the cached field to the delivered
value and logs exactly once. -/
theorem device_callbacks_equality_guarded :
    (∀ (p : DeviceProperties) (v : List Char),
        (p.Address = v → Device.AddressChanged p v = (p, 0)) ∧
        (p.Address ≠ v → (Device.AddressChanged p v).1.Address = v ∧
          (Device.AddressChanged p v).2 = 1)) ∧
    (∀ (p : DeviceProperties) (v : List Char),
        (p.AddressType = v → Device.AddressTypeChanged p v = (p, 0)) ∧
        (p.AddressType ≠ v → (Device.AddressTypeChanged p v).1.AddressType = v ∧
          (Device.AddressTypeChanged p v).2 = 1)) ∧
    (∀ (p : DeviceProperties) (v : List Char),
        (p.Name = v → Device.NameChanged p v = (p, 0)) ∧
        (p.Name ≠ v → (Device.NameChanged p v).1.Name = v ∧
          (Device.NameChanged p v).2 = 1)) ∧
    (∀ (p : DeviceProperties) (v : List Char),
        (p.Icon = v → Device.IconChanged p v = (p, 0)) ∧
        (p.Icon ≠ v → (Device.IconChanged p v).1.Icon = v ∧
          (Device.IconChanged p v).2 = 1)) ∧
    (∀ (p : DeviceProperties) (v : Nat),
        (p.Class = v → Device.ClassChanged p v = (p, 0)) ∧
        (p.Class ≠ v → (Device.ClassChanged p v).1.Class = v ∧
          (Device.ClassChanged p v).2 = 1)) ∧
    (∀ (p : DeviceProperties) (v : List (List Char)),
        (p.UUIDs = v → Device.UUIDsChanged p v = (p, 0)) ∧
        (p.UUIDs ≠ v → (Device.UUIDsChanged p v).1.UUIDs = v ∧
          (Device.UUIDsChanged p v).2 = 1)) ∧
    (∀ (p : DeviceProperties) (v : Bool),
        (p.Paired = v → Device.PairedChanged p v = (p, 0)) ∧
        (p.Paired ≠ v → (Device.PairedChanged p v).1.Paired = v ∧
          (Device.PairedChanged p v).2 = 1)) ∧
    (∀ (p : DeviceProperties) (v : Bool),
        (p.Connected = v → Device.ConnectedChanged p v = (p, 0)) ∧
        (p.Connected ≠ v → (Device.ConnectedChanged p v).1.Connected = v ∧
          (Device.ConnectedChanged p v).2 = 1)) ∧
    (∀ (p : DeviceProperties) (v : Bool),
        (p.Trusted = v → Device.TrustedChanged p v = (p, 0)) ∧
        (p.Trusted ≠ v → (Device.TrustedChanged p v).1.Trusted = v ∧
          (Device.TrustedChanged p v).2 = 1)) ∧
    (∀ (p : DeviceProperties) (v : Bool),
        (p.Blocked = v → Device.BlockedChanged p v = (p, 0)) ∧
        (p.Blocked ≠ v → (Device.BlockedChanged p v).1.Blocked = v ∧
          (Device.BlockedChanged p v).2 = 1)) ∧
    (∀ (p : DeviceProperties) (v : List Char),
        (p.Alias = v → Device.AliasChanged p v = (p, 0)) ∧
        (p.Alias ≠ v → (Device.AliasChanged p v).1.Alias = v ∧
          (Device.AliasChanged p v).2 = 1)) ∧
    (∀ (p : DeviceProperties) (v : List Char),
        (p.AdapterPath = v → Device.AdapterChanged p v = (p, 0)) ∧
        (p.AdapterPath ≠ v → (Device.AdapterChanged p v).1.AdapterPath = v ∧
          (Device.AdapterChanged p v).2 = 1)) ∧
    (∀ (p : DeviceProperties) (v : Bool),
        (p.LegacyPairing = v → Device.LegacyPairingChanged p v = (p, 0)) ∧
        (p.LegacyPairing ≠ v →
          (Device.LegacyPairingChanged p v).1.LegacyPairing = v ∧
          (Device.LegacyPairingChanged p v).2 = 1)) ∧
    (∀ (p : DeviceProperties) (v : List (Nat × List (Int × List Char))),
        (p.ManufacturerData = v → Device.ManufacturerDataChanged p v = (p, 0)) ∧
        (p.ManufacturerData ≠ v →
          (Device.ManufacturerDataChanged p v).1.ManufacturerData = v ∧
          (Device.ManufacturerDataChanged p v).2 = 1)) ∧
    (∀ (p : DeviceProperties) (v : List (List Char × List (Int × List Char))),
        (p.ServiceData = v → Device.ServiceDataChanged p v = (p, 0)) ∧
        (p.ServiceData ≠ v → (Device.ServiceDataChanged p v).1.ServiceData = v ∧
          (Device.ServiceDataChanged p v).2 = 1)) ∧
    (∀ (p : DeviceProperties) (v : Bool),
        (p.ServicesResolved = v → Device.ServicesResolvedChanged p v = (p, 0)) ∧
        (p.ServicesResolved ≠ v →
          (Device.ServicesResolvedChanged p v).1.ServicesResolved = v ∧
          (Device.ServicesResolvedChanged p v).2 = 1)) := by
  refine ⟨?_, ?_, ?_, ?_, ?_, ?_, ?_, ?_, ?_, ?_, ?_, ?_, ?_, ?_, ?_, ?_⟩ <;>
    exact fun p v =>
      ⟨fun h => by
          simp [Device.AddressChanged, Device.AddressTypeChanged,
            Device.NameChanged, Device.IconChanged, Device.ClassChanged,
            Device.UUIDsChanged, Device.PairedChanged, Device.ConnectedChanged,
            Device.TrustedChanged, Device.BlockedChanged, Device.AliasChanged,
            Device.AdapterChanged, Device.LegacyPairingChanged,
            Device.ManufacturerDataChanged, Device.ServiceDataChanged,
            Device.ServicesResolvedChanged, h],
       fun h => by
          simp [Device.AddressChanged, Device.AddressTypeChanged,
            Device.NameChanged, Device.IconChanged, Device.ClassChanged,
            Device.UUIDsChanged, Device.PairedChanged, Device.ConnectedChanged,
            Device.TrustedChanged, Device.BlockedChanged, Device.AliasChanged,
            Device.AdapterChanged, Device.LegacyPairingChanged,
            Device.ManufacturerDataChanged, Device.ServiceDataChanged,
            Device.ServicesResolvedChanged, h]⟩

/-- C8 witness: the Address and Connected callbacks on a concrete cache, once
with an unchanged and once with a changed value. -/
theorem device_callbacks_equality_guarded_witness :
    Device.AddressChanged sampleProps [] = (sampleProps, 0) ∧
    (Device.AddressChanged sampleProps ['a']).1.Address = ['a'] ∧
    (Device.AddressChanged sampleProps ['a']).2 = 1 ∧
    Device.ConnectedChanged sampleProps false = (sampleProps, 0) ∧
    (Device.ConnectedChanged sampleProps true).1.Connected = true ∧
    (Device.ConnectedChanged sampleProps true).2 = 1 :=
  ⟨(device_callbacks_equality_guarded.1 sampleProps []).1 rfl,
   ((device_callbacks_equality_guarded.1 sampleProps ['a']).2 (by decide)).1,
   ((device_callbacks_equality_guarded.1 sampleProps ['a']).2 (by decide)).2,
   ((device_callbacks_equality_guarded.2.2.2.2.2.2.2.1 sampleProps false).1 rfl),
   ((device_callbacks_equality_guarded.2.2.2.2.2.2.2.1 sampleProps true).2
      (by decide)).1,
   ((device_callbacks_equality_guarded.2.2.2.2.2.2.2.1 sampleProps true).2
      (by decide)).2⟩

